import Mathlib

/-!
Shallow embedding of the DexScreener-Rocket-Analyzer verification and
risk-scoring pipeline, with theorems checking the design-spec claims
against the source code.

Conventions of the embedding:
* Python floats are modelled as rationals (`ℚ`), ints as `ℤ`/`ℕ`.
* Python dicts keyed by strings are modelled as association lists.
* A Python function that can raise is modelled with `Except`/`Option`
  at the point where the exception crosses a boundary; a function that
  catches everything is a total Lean function.
* External HTTP calls are modelled by an explicit environment (oracle)
  supplying the outcome of each call.
Log output, progress bars and the textual risk-factor lists do not
influence any value the claims are about and are not modelled.
-/

namespace LiquidityLockChecker

/-- `LiquidityLockInfo` from `raket-2/src/analysis/liquidity_lock_checker.py`.
`unlock_date` and the warning strings are carried as data only. -/
structure LiquidityLockInfo where
  is_locked : Bool := false
  locked_percentage : ℚ := 0
  unlock_date : Option ℚ := none
  lock_duration_days : ℤ := 0
  platform : String := ""
  lock_contract : String := ""
  total_locked_amount : ℚ := 0
  warnings : List String := []
deriving Repr, DecidableEq

/-- The trusted-platform allow-list used by `get_lock_score`. -/
def trusted_platforms : List String := ["Team Finance", "Unicrypt", "PinkSale"]

/-- The locked-percentage component of `get_lock_score`. -/
def percentageComponent (p : ℚ) : ℤ :=
  if p ≥ 90 then 25
  else if p ≥ 80 then 20
  else if p ≥ 50 then 10
  else 0

/-- The lock-duration component of `get_lock_score`. -/
def durationComponent (d : ℤ) : ℤ :=
  if d ≥ 365 then 25
  else if d ≥ 180 then 20
  else if d ≥ 90 then 15
  else if d ≥ 30 then 10
  else 0

/-- The platform component of `get_lock_score`. -/
def platformComponent (platform : String) : ℤ :=
  if trusted_platforms.contains platform then 20 else 10

/-- `LiquidityLockChecker.get_lock_score`: 0 when not locked, otherwise
base 30 plus percentage, duration and platform components, capped at 100. -/
def get_lock_score (info : LiquidityLockInfo) : ℤ :=
  if !info.is_locked then 0
  else
    let score : ℤ := 0
    let score := score + 30
    let score := score + percentageComponent info.locked_percentage
    let score := score + durationComponent info.lock_duration_days
    let score := score + platformComponent info.platform
    min score 100

/-- The formula stated by the spec for `lockScore` on a locked pool. -/
def specLockedFormula (info : LiquidityLockInfo) : ℤ :=
  min (30 + percentageComponent info.locked_percentage
          + durationComponent info.lock_duration_days
          + platformComponent info.platform) 100

end LiquidityLockChecker

namespace TtlCache

/-- One cache slot: key, then `(storedAt, value)` as stored by
`self.cache[cache_key] = (time.time(), result)`. -/
abbrev Cache (α : Type) := List (String × (ℚ × α))

/-- Key lookup in the underlying dict (no TTL logic). -/
def lookupEntry {α : Type} : Cache α → String → Option (ℚ × α)
  | [], _ => none
  | (k, e) :: rest, key => if k = key then some e else lookupEntry rest key

/-- The read discipline shared by `verify_contract_multi_source` and
`check_liquidity_lock`: an entry is served only while
`now - storedAt < ttl`; a stale entry is skipped, not removed. -/
def cacheLookup {α : Type} (c : Cache α) (key : String) (now ttl : ℚ) : Option α :=
  match lookupEntry c key with
  | some (storedAt, v) => if now - storedAt < ttl then some v else none
  | none => none

/-- Removal of the slot for one key (the overwrite part of a dict
assignment). -/
def removeKey {α : Type} : Cache α → String → Cache α
  | [], _ => []
  | (k, e) :: rest, key =>
      if k = key then removeKey rest key else (k, e) :: removeKey rest key

/-- The write discipline: `self.cache[cache_key] = (time.time(), result)`
always overwrites the slot for that key. -/
def cacheStore {α : Type} (c : Cache α) (key : String) (now : ℚ) (v : α) : Cache α :=
  (key, (now, v)) :: removeKey c key

/-- The call-through-cache pattern of both functions: serve a fresh entry
unchanged, otherwise compute and store. -/
def cachedCall {α : Type} (c : Cache α) (key : String) (now ttl : ℚ) (compute : α) :
    α × Cache α :=
  match cacheLookup c key now ttl with
  | some v => (v, c)
  | none => (compute, cacheStore c key now compute)

end TtlCache

namespace ContractVerifier

/-- `ContractVerificationResult` from
`raket-2/src/analysis/contract_verifier.py` (the `raw_data` payload is
not modelled). -/
structure ContractVerificationResult where
  is_verified : Bool := false
  is_honeypot : Bool := false
  buy_tax : String := "0"
  sell_tax : String := "0"
  owner_address : String := ""
  can_take_back_ownership : Bool := false
  is_open_source : Bool := false
  has_mint_function : Bool := false
  has_blacklist : Bool := false
  is_proxy : Bool := false
  verification_source : String := ""
  error_message : String := ""
deriving Repr, DecidableEq

/-- `GOPLUS_BATCH_SIZE` from `raket-2/src/config.py` (default). -/
def GOPLUS_BATCH_SIZE : ℕ := 25

/-- `GOPLUS_RATE_LIMIT` from `raket-2/src/config.py` (default, requests
per minute). -/
def GOPLUS_RATE_LIMIT : ℕ := 30

/-- `chain_id_mapping.get(chain)`: chains explicitly mapped to `None`
(`solana`, `ton`, `sonic`) and unknown chains both yield `none`. -/
def chain_id_mapping (chain : String) : Option ℕ :=
  if chain = "ethereum" then some 1
  else if chain = "bsc" then some 56
  else if chain = "polygon" then some 137
  else if chain = "arbitrum" then some 42161
  else if chain = "avalanche" then some 43114
  else if chain = "fantom" then some 250
  else if chain = "optimism" then some 10
  else if chain = "base" then some 8453
  else if chain = "linea" then some 59144
  else if chain = "cronos" then some 25
  else none

/-- A parsed JSON object with string values, as used for each per-token
entry of a GoPlus response. -/
abbrev JsonObj := List (String × String)

/-- `obj.get(key, default)`. -/
def jget (obj : JsonObj) (key default : String) : String :=
  match obj with
  | [] => default
  | (k, v) :: rest => if k = key then v else jget rest key default

/-- First-match lookup in the GoPlus `result` map (keys are lowercase
addresses). -/
def jfind (pairs : List (String × JsonObj)) (key : String) : Option JsonObj :=
  match pairs with
  | [] => none
  | (k, v) :: rest => if k = key then some v else jfind rest key

/-- The parsed body of a successful (HTTP 200) GoPlus batch response:
a top-level `code` and an optional `result` map. -/
structure GoPlusResponse where
  code : ℤ
  result : Option (List (String × JsonObj))
deriving Repr

/-- Outcome of one GoPlus batch HTTP call. -/
inductive FetchOutcome where
  /-- HTTP 200 with a parsed JSON body. -/
  | ok (resp : GoPlusResponse)
  /-- HTTP status other than 200 (the code logs and returns `{}`). -/
  | httpError
  /-- an exception during the request or JSON parse (caught; `{}`). -/
  | exn
deriving Repr

/-- The external world as seen by `ContractVerifier`: each oracle gives
the outcome of the corresponding network call. -/
structure Env where
  goplus : String → List String → FetchOutcome
  jupiterFound : String → Bool
  solanaRpcFound : String → Bool
  etherscan : String → Option (String × String)
  bscscan : String → Option (String × String)

/-- The per-address record built from a GoPlus `result` entry
(lines 220–231 of `contract_verifier.py`). -/
def buildGoPlusResult (ti : JsonObj) : ContractVerificationResult :=
  let buy := jget ti "buy_tax" "0"
  let sell := jget ti "sell_tax" "0"
  let creator := jget ti "creator_address" ""
  { is_honeypot := jget ti "is_honeypot" "0" = "1"
    is_verified := jget ti "is_open_source" "0" = "1"
    buy_tax := if buy = "" then "0" else buy
    sell_tax := if sell = "" then "0" else sell
    owner_address := if creator = "" then jget ti "owner_address" "" else creator
    can_take_back_ownership := jget ti "can_take_back_ownership" "0" = "1"
    has_mint_function := jget ti "is_mintable" "0" = "1"
    has_blacklist := jget ti "is_blacklisted" "0" = "1"
    is_proxy := jget ti "is_proxy" "0" = "1"
    verification_source := "GoPlus Security" }

/-- `_check_solana_contract`: account lookup over public RPC endpoints;
`None` when no endpoint reports the account. -/
def check_solana_contract (env : Env) (addr : String) : Option ContractVerificationResult :=
  if env.solanaRpcFound addr then some { is_verified := true } else none

/-- `_check_solana_token_basic`: Jupiter token-list lookup, then the RPC
fallback. -/
def check_solana_token_basic (env : Env) (addr : String) : Option ContractVerificationResult :=
  if env.jupiterFound addr then
    some { is_verified := true, verification_source := "Jupiter Token List" }
  else check_solana_contract env addr

/-- `_check_etherscan_public`: on a successful `getsourcecode` answer the
token is verified iff the source-code field is non-blank. -/
def check_etherscan_public (env : Env) (addr : String) : Option ContractVerificationResult :=
  match env.etherscan addr with
  | some (src, creator) =>
      some { is_verified := src.trim ≠ "", owner_address := creator }
  | none => none

/-- `_check_bscscan_public`, same shape as the Etherscan probe. -/
def check_bscscan_public (env : Env) (addr : String) : Option ContractVerificationResult :=
  match env.bscscan addr with
  | some (src, creator) =>
      some { is_verified := src.trim ≠ "", owner_address := creator }
  | none => none

/-- `_check_fallback_sources`: explorer probes exist only for Ethereum
and BSC. -/
def check_fallback_sources (env : Env) (addr chain : String) :
    Option ContractVerificationResult :=
  if chain = "ethereum" then check_etherscan_public env addr
  else if chain = "bsc" then check_bscscan_public env addr
  else none

/-- `_process_batch_fallback`: every address of the batch receives an
entry, whatever the probes answer. -/
def process_batch_fallback (env : Env) (addresses : List String) (chain : String) :
    List (String × ContractVerificationResult) :=
  addresses.map fun address =>
    (address,
      if chain = "solana" then
        match check_solana_token_basic env address with
        | some r => { r with verification_source := "Solana Token Registry" }
        | none => { verification_source := "Solana (не найден)" }
      else if chain = "ton" then { is_verified := true, verification_source := "TON Network" }
      else if chain = "sonic" then { is_verified := true, verification_source := "Sonic Network" }
      else
        match check_fallback_sources env address chain with
        | some r => r
        | none => { verification_source := chain ++ " (не поддерживается)" })

/-- `_process_batch_goplus`: on HTTP 200 with a usable body each
requested address gets an entry (found, not-found or API-error default);
on a non-200 status or an exception the whole batch yields `{}`. -/
def process_batch_goplus (env : Env) (addresses : List String) (chain : String) :
    List (String × ContractVerificationResult) :=
  match chain_id_mapping chain with
  | none => process_batch_fallback env addresses chain
  | some _ =>
    match env.goplus chain addresses with
    | FetchOutcome.ok resp =>
      match resp.result with
      | some r =>
        if resp.code = 1 ∧ r ≠ [] then
          addresses.map fun address =>
            (address,
              match jfind r address.toLower with
              | some ti => buildGoPlusResult ti
              | none => { verification_source := "GoPlus Security (не найден)" })
        else
          addresses.map fun address =>
            (address, { verification_source := "GoPlus Security (ошибка API)" })
      | none =>
        addresses.map fun address =>
          (address, { verification_source := "GoPlus Security (ошибка API)" })
    | FetchOutcome.httpError => []
    | FetchOutcome.exn => []

/-- `_process_batch_with_progress`: any exception escaping the batch
task is caught and converted into the empty map, so sibling batches are
unaffected. -/
def process_batch_with_progress
    (r : Except String (List (String × ContractVerificationResult))) :
    List (String × ContractVerificationResult) :=
  match r with
  | Except.ok d => d
  | Except.error _ => []

/-- The grouping loop of `verify_contracts_batch`: a dict from chain to
the addresses seen for it, in insertion order. -/
def addToGroup (groups : List (String × List String)) (chain addr : String) :
    List (String × List String) :=
  match groups with
  | [] => [(chain, [addr])]
  | (c, as') :: rest =>
      if c = chain then (c, as' ++ [addr]) :: rest
      else (c, as') :: addToGroup rest chain addr

/-- `contracts_by_chain` built from the `(address, chain)` input list. -/
def groupByChain (contracts : List (String × String)) : List (String × List String) :=
  contracts.foldl (fun acc p => addToGroup acc p.2 p.1) []

/-- `[addresses[i:i + SIZE] for i in range(0, len(addresses), SIZE)]`. -/
def chunksOf (n : ℕ) (l : List String) : List (List String) :=
  if h : l = [] then []
  else if hn : n = 0 then []
  else l.take n :: chunksOf n (l.drop n)
termination_by l.length
decreasing_by
  simp only [List.length_drop]
  have hl : 0 < l.length := List.length_pos.mpr h
  omega

/-- `results.update(batch_result)`: later entries replace earlier ones
with the same key. -/
def dictUpdate (m new : List (String × ContractVerificationResult)) :
    List (String × ContractVerificationResult) :=
  m.filter (fun kv => !(new.any (fun kv2 => kv2.1 = kv.1))) ++ new

/-- `ContractVerifier.verify_contracts_batch`: group by chain, cut each
chain's list into `GOPLUS_BATCH_SIZE` chunks, process every chunk and
merge the per-chunk dicts into one result map. -/
def verify_contracts_batch (env : Env) (contracts : List (String × String)) :
    List (String × ContractVerificationResult) :=
  if contracts = [] then []
  else
    (groupByChain contracts).foldl
      (fun results grp =>
        (chunksOf GOPLUS_BATCH_SIZE grp.2).foldl
          (fun res batch =>
            dictUpdate res
              (process_batch_with_progress
                (Except.ok (process_batch_goplus env batch grp.1))))
          results)
      []

/-- A world in which every HTTP call fails (non-200 status from GoPlus,
nothing found anywhere else). -/
def failEnv : Env where
  goplus := fun _ _ => FetchOutcome.httpError
  jupiterFound := fun _ => false
  solanaRpcFound := fun _ => false
  etherscan := fun _ => none
  bscscan := fun _ => none

/-- A world in which every GoPlus batch call comes back HTTP 200 with an
empty body (`code = 0`), driving the per-address API-error defaults. -/
def okEnv : Env where
  goplus := fun _ _ => FetchOutcome.ok { code := 0, result := none }
  jupiterFound := fun _ => false
  solanaRpcFound := fun _ => false
  etherscan := fun _ => none
  bscscan := fun _ => none

/-- `request_delays['goplus'] = 60.0 / GOPLUS_RATE_LIMIT`. -/
def goplusDelay : ℚ := 60 / (GOPLUS_RATE_LIMIT : ℚ)

/-- The mutable pacing state of `_respect_rate_limit`, restricted to the
`goplus` source: its request counter, the counter window start, and the
recorded time of the last request. -/
structure RLState where
  counter : ℕ
  counterResetTime : ℚ
  lastRequestTime : Option ℚ
deriving Repr, DecidableEq

/-- `_respect_rate_limit('goplus')` for a call entering at time `t`:
returns the dispatch time (after the sleeps) and the new state.  The
code samples `current_time` once at entry; the spacing check and the
stored `last_request_time` both use that entry time, not the time after
sleeping. -/
def respect_rate_limit (s : RLState) (t : ℚ) : ℚ × RLState :=
  let s := if t - s.counterResetTime > 60 then
      { s with counter := 0, counterResetTime := t } else s
  let p :=
    if s.counter ≥ GOPLUS_RATE_LIMIT then
      let wait := 60 - (t - s.counterResetTime)
      if wait > 0 then (t + wait, { s with counter := 0, counterResetTime := t + wait })
      else (t, s)
    else (t, s)
  let now := p.1
  let s := p.2
  let now :=
    match s.lastRequestTime with
    | some last =>
        let since := t - last
        if since < goplusDelay then now + (goplusDelay - since) else now
    | none => now
  (now, { s with lastRequestTime := some t, counter := s.counter + 1 })

/-- A sequential caller: each call enters one gap after the previous
call returned; the list collects the dispatch times. -/
def rlRun (s : RLState) (ret : ℚ) (gaps : List ℚ) : List ℚ :=
  match gaps with
  | [] => []
  | g :: rest =>
      let entry := ret + g
      let p := respect_rate_limit s entry
      p.1 :: rlRun p.2 p.1 rest

/-- The successive limiter states of the same run. -/
def rlStates (s : RLState) (ret : ℚ) (gaps : List ℚ) : List RLState :=
  match gaps with
  | [] => []
  | g :: rest =>
      let entry := ret + g
      let p := respect_rate_limit s entry
      p.2 :: rlStates p.2 p.1 rest

/-- The boundary case in which a call finds the counter exhausted exactly
60 seconds after the window start, so the computed wait is not positive
and the counter is neither slept on nor reset. -/
def stepEdge (s : RLState) (t : ℚ) : Bool :=
  let s1 := if t - s.counterResetTime > 60 then
      { s with counter := 0, counterResetTime := t } else s
  decide (s1.counter ≥ GOPLUS_RATE_LIMIT) && decide (60 - (t - s1.counterResetTime) ≤ 0)

/-- A run avoiding the boundary case at every step. -/
def runEdgeFree (s : RLState) (ret : ℚ) (gaps : List ℚ) : Bool :=
  match gaps with
  | [] => true
  | g :: rest =>
      let entry := ret + g
      let p := respect_rate_limit s entry
      !stepEdge s entry && runEdgeFree p.2 p.1 rest

/-- Dispatch times falling in the rolling window `[T, T + 60)`. -/
def countInWindow (times : List ℚ) (T : ℚ) : ℕ :=
  (times.filter (fun x => decide (T ≤ x) && decide (x < T + 60))).length

/-- A schedule of call gaps that drives 31 dispatches into one rolling
60-second window: 30 calls spaced 2 s apart, one call entering at 59 s
(slept to the window edge and dispatched at 61 s), and one entering
right after it (dispatched at 61 s as well, because the recorded
`last_request_time` is the entry time of the previous call, not its
dispatch time). -/
def burstSchedule : List ℚ := 0 :: (List.replicate 29 2 ++ [1, 0])

/-- The initial pacing state of `ContractVerifier.__init__` (counter 0,
window starting at construction time, no request recorded). -/
def rlInit : RLState := { counter := 0, counterResetTime := 0, lastRequestTime := none }

end ContractVerifier

namespace TokenScanner

/-- What one iteration of the retry loop of `_make_async_request`
observes. -/
inductive Attempt where
  /-- HTTP 200 and the body parses: the JSON dict is returned. -/
  | ok (payload : List (String × String))
  /-- HTTP 429: retried with backoff; after the last attempt `{}`. -/
  | tooMany
  /-- `aiohttp.ClientError` (timeouts, network errors, non-2xx raised by
  `raise_for_status`): retried; after the last attempt `{}`. -/
  | clientErr
  /-- any other exception (e.g. a malformed payload): same handling. -/
  | otherErr
deriving Repr, DecidableEq

/-- `for attempt in range(self.max_retries): ...`, taking the outcome of
attempt `i` from `attempts i`; falls through to `return {}`. -/
def requestLoop (attempts : ℕ → Attempt) (maxRetries : ℕ) (attempt : ℕ) :
    List (String × String) :=
  if h : attempt ≥ maxRetries then []
  else
    match attempts attempt with
    | Attempt.ok payload => payload
    | Attempt.tooMany =>
        if attempt < maxRetries - 1 then requestLoop attempts maxRetries (attempt + 1)
        else []
    | Attempt.clientErr =>
        if attempt = maxRetries - 1 then []
        else requestLoop attempts maxRetries (attempt + 1)
    | Attempt.otherErr =>
        if attempt = maxRetries - 1 then []
        else requestLoop attempts maxRetries (attempt + 1)
termination_by maxRetries - attempt
decreasing_by all_goals omega

/-- `TokenScanner._make_async_request` seen from its caller: the value
returned for a given sequence of attempt outcomes. -/
def make_async_request (attempts : ℕ → Attempt) (maxRetries : ℕ) :
    List (String × String) :=
  requestLoop attempts maxRetries 0

end TokenScanner

namespace RiskCalculator

/-- `OwnerType` from `seturity/models.py`. -/
inductive OwnerType where
  | EOA | MULTISIG | TIMELOCK | RENOUNCED | UNKNOWN
deriving Repr, DecidableEq

/-- `ContractAnalysis.audit_results` dict with its four severity keys. -/
structure AuditResults where
  critical : ℕ := 0
  high : ℕ := 0
  medium : ℕ := 0
  low : ℕ := 0
deriving Repr, DecidableEq

/-- `ContractAnalysis` from `seturity/models.py` (fields the risk
calculator reads). -/
structure ContractAnalysis where
  verified : Bool := false
  audit_results : AuditResults := {}
  dangerous_functions : List String := []
  honeypot_probability : ℚ := 0
deriving Repr, DecidableEq

/-- `OwnershipAnalysis` from `seturity/models.py`. -/
structure OwnershipAnalysis where
  owner : String := "0x0000000000000000000000000000000000000000"
  owner_type : OwnerType := OwnerType.UNKNOWN
  renounced : Bool := false
deriving Repr, DecidableEq

/-- `DistributionAnalysis` from `seturity/models.py`. -/
structure DistributionAnalysis where
  top_10_holders_percent : ℚ := 0
  gini_coefficient : ℚ := 0
  total_holders : ℕ := 0
  liquidity_locked : Bool := false
  liquidity_lock_period : Option ℤ := none
deriving Repr, DecidableEq

/-- `TradingAnalysis` from `seturity/models.py`. -/
structure TradingAnalysis where
  wash_trading_score : ℚ := 0
  organic_volume_ratio : ℚ := 0
  volume_24h : ℚ := 0
  price_change_24h : ℚ := 0
deriving Repr, DecidableEq

/-- `TokenSecurityReport` restricted to the analysis inputs of
`RiskScoreCalculator`. -/
structure TokenSecurityReport where
  contract_analysis : ContractAnalysis := {}
  ownership : OwnershipAnalysis := {}
  distribution : DistributionAnalysis := {}
  trading : TradingAnalysis := {}
deriving Repr, DecidableEq

/-- `RiskLevel` from `seturity/models.py`. -/
inductive RiskLevel where
  | LOW | MEDIUM | HIGH | CRITICAL
deriving Repr, DecidableEq

/-- The `scores` dict built inside `calculate_risk_score`, with its seven
fixed keys. -/
structure ScoreBreakdown where
  contract_verification : ℚ
  ownership_status : ℚ
  liquidity_lock : ℚ
  holder_distribution : ℚ
  trading_patterns : ℚ
  code_audit : ℚ
  community_reports : ℚ
deriving Repr, DecidableEq

/-- `RiskAssessment` as returned by `calculate_risk_score`. -/
structure RiskAssessment where
  overall_score : ℚ
  risk_level : RiskLevel
  confidence : ℚ
  breakdown : ScoreBreakdown
deriving Repr, DecidableEq

/-- `RiskScoreCalculator.calculate_verification_score`. -/
def calculate_verification_score (td : TokenSecurityReport) : ℚ :=
  if !td.contract_analysis.verified then 0.8
  else if td.contract_analysis.audit_results.critical > 0 then 0.9
  else if td.contract_analysis.audit_results.high > 0 then 0.7
  else if td.contract_analysis.audit_results.medium > 0 then 0.4
  else 0.1

/-- `RiskScoreCalculator.calculate_ownership_score`. -/
def calculate_ownership_score (td : TokenSecurityReport) : ℚ :=
  if td.ownership.renounced then 0.0
  else if td.ownership.owner_type = OwnerType.TIMELOCK then 0.2
  else if td.ownership.owner_type = OwnerType.MULTISIG then 0.4
  else 0.9

/-- Python truthiness-guarded comparison `period and period > n` used in
`calculate_liquidity_score` (`None` and `0` are falsy). -/
def periodTruthyGt (period : Option ℤ) (n : ℤ) : Bool :=
  match period with
  | some p => p ≠ 0 && p > n
  | none => false

/-- `RiskScoreCalculator.calculate_liquidity_score`. -/
def calculate_liquidity_score (td : TokenSecurityReport) : ℚ :=
  if td.distribution.liquidity_locked then
    if periodTruthyGt td.distribution.liquidity_lock_period 365 then 0.1
    else if periodTruthyGt td.distribution.liquidity_lock_period 180 then 0.3
    else 0.5
  else 0.9

/-- `RiskScoreCalculator.calculate_distribution_score`. -/
def calculate_distribution_score (td : TokenSecurityReport) : ℚ :=
  let gini := td.distribution.gini_coefficient
  let top10 := td.distribution.top_10_holders_percent
  if gini > 0.8 ∨ top10 > 80 then 0.9
  else if gini > 0.6 ∨ top10 > 60 then 0.7
  else if gini > 0.4 ∨ top10 > 40 then 0.5
  else 0.2

/-- `RiskScoreCalculator.calculate_trading_score`. -/
def calculate_trading_score (td : TokenSecurityReport) : ℚ :=
  let wash := td.trading.wash_trading_score
  let organic := td.trading.organic_volume_ratio
  if wash > 0.7 ∨ organic < 0.3 then 0.9
  else if wash > 0.5 ∨ organic < 0.5 then 0.7
  else if wash > 0.3 ∨ organic < 0.7 then 0.5
  else 0.2

/-- `RiskScoreCalculator.calculate_audit_score`. -/
def calculate_audit_score (td : TokenSecurityReport) : ℚ :=
  let hp := td.contract_analysis.honeypot_probability
  if hp > 0.8 then 0.9
  else if hp > 0.5 then 0.7
  else if td.contract_analysis.dangerous_functions.length > 5 then 0.6
  else if td.contract_analysis.dangerous_functions.length > 2 then 0.4
  else 0.1

/-- `RiskScoreCalculator.calculate_community_score`. -/
def calculate_community_score (_td : TokenSecurityReport) : ℚ := 0.3

/-- The `scores` dict assembled by `calculate_risk_score`. -/
def computeScores (td : TokenSecurityReport) : ScoreBreakdown where
  contract_verification := calculate_verification_score td
  ownership_status := calculate_ownership_score td
  liquidity_lock := calculate_liquidity_score td
  holder_distribution := calculate_distribution_score td
  trading_patterns := calculate_trading_score td
  code_audit := calculate_audit_score td
  community_reports := calculate_community_score td

/-- `RiskScoreCalculator.get_risk_level`. -/
def get_risk_level (score : ℚ) : RiskLevel :=
  if score ≥ 0.8 then RiskLevel.CRITICAL
  else if score ≥ 0.6 then RiskLevel.HIGH
  else if score ≥ 0.4 then RiskLevel.MEDIUM
  else RiskLevel.LOW

/-- `RiskScoreCalculator.calculate_confidence`: 0.5 base, +0.1 for each
of the seven scores that is ≥ 0, capped at 1.0. -/
def calculate_confidence (s : ScoreBreakdown) : ℚ :=
  let add (x : ℚ) : ℚ := if x ≥ 0 then 0.1 else 0
  min (0.5 + add s.contract_verification + add s.ownership_status +
    add s.liquidity_lock + add s.holder_distribution + add s.trading_patterns +
    add s.code_audit + add s.community_reports) 1.0

/-- The fixed weights dict of `RiskScoreCalculator.__init__`. -/
def weights : ScoreBreakdown where
  contract_verification := 0.15
  ownership_status := 0.20
  liquidity_lock := 0.25
  holder_distribution := 0.15
  trading_patterns := 0.10
  code_audit := 0.10
  community_reports := 0.05

/-- `final_score = sum(scores[k] * self.weights[k] for k in scores)`. -/
def weightedSum (s w : ScoreBreakdown) : ℚ :=
  s.contract_verification * w.contract_verification +
  s.ownership_status * w.ownership_status +
  s.liquidity_lock * w.liquidity_lock +
  s.holder_distribution * w.holder_distribution +
  s.trading_patterns * w.trading_patterns +
  s.code_audit * w.code_audit +
  s.community_reports * w.community_reports

/-- `RiskScoreCalculator.calculate_risk_score`. -/
def calculate_risk_score (td : TokenSecurityReport) : RiskAssessment :=
  let scores := computeScores td
  let final_score := weightedSum scores weights
  { overall_score := final_score
    risk_level := get_risk_level final_score
    confidence := calculate_confidence scores
    breakdown := scores }

end RiskCalculator

namespace TokenAnalyzer

open ContractVerifier (ContractVerificationResult)
open LiquidityLockChecker (LiquidityLockInfo)

/-- The configuration thresholds read by `Token.calculate_risk_score`
in `src_analyse-2/src/token_analyzer.py`, with the in-code defaults used
when `config.json` lacks the keys. -/
structure ScoreConfig where
  suspiciousPriceChangeMin : ℚ := 1000
  highRiskLiquidity : ℚ := 1000
  suspiciousVolLiqMin : ℚ := 5
deriving Repr, DecidableEq

/-- The fields of `Token` (from `src_analyse-2/src/token_analyzer.py`)
that the verification and risk-scoring stages read or write.  `info`'s
website/social lookups are modelled as the two booleans the code derives
from them; the textual `risk_factors` list is not modelled. -/
structure Token where
  price_change_24h : ℚ := 0
  age_hours : ℚ := 0
  liquidity_usd : ℚ := 0
  volume_24h : ℚ := 0
  has_website : Bool := false
  has_socials : Bool := false
  buys_24h : ℕ := 0
  sells_24h : ℕ := 0
  liquidity_lock_score : Option ℤ := none
  liquidity_lock_info : Option LiquidityLockInfo := none
  verification_result : Option ContractVerificationResult := none
  risk_score : ℤ := 0
  risk_level : String := "Низкий"
deriving Repr, DecidableEq

/-- Ordering of the five risk buckets, worst last. -/
def levelRank (lvl : String) : ℕ :=
  if lvl = "Скам" then 4
  else if lvl = "Высокий" then 3
  else if lvl = "Средний" then 2
  else if lvl = "Умеренный" then 1
  else 0

/-- The sum of the fixed penalties that `TokenAnalyzer.verify_contracts`
adds to `risk_score` for a verified-against token. -/
def verificationPenalty (t : Token) (vr : ContractVerificationResult) : ℤ :=
  (if vr.is_honeypot then 50 else 0) +
  (if !vr.is_verified then
    let has_high_liquidity := t.liquidity_usd ≥ 100000
    let has_mature_age := t.age_hours ≥ 720
    let has_social_presence := t.has_website || t.has_socials
    if has_high_liquidity && (has_mature_age || has_social_presence) then 5 else 15
   else 0) +
  (if vr.can_take_back_ownership then 20 else 0) +
  (if vr.has_mint_function then 10 else 0) +
  (if vr.has_blacklist then 15 else 0) +
  (if vr.is_proxy then 10 else 0)

/-- The risk-level refresh at the end of the `verify_contracts` loop
(80/60/40 thresholds). -/
def verificationLevel (score : ℤ) : String :=
  if score ≥ 80 then "Скам"
  else if score ≥ 60 then "Высокий"
  else if score ≥ 40 then "Средний"
  else "Низкий"

/-- The per-token body of `TokenAnalyzer.verify_contracts` for a token
whose address is present in the batch-verification result map: fixed
penalties are added to `risk_score` and `risk_level` is refreshed from
the 80/60/40 thresholds. -/
def applyVerification (t : Token) (vr : ContractVerificationResult) : Token :=
  let score := t.risk_score + verificationPenalty t vr
  { t with verification_result := some vr, risk_score := score,
           risk_level := verificationLevel score }

/-- The numeric score accumulated by `Token.calculate_risk_score`
(starting from a fresh `score = 0`). -/
def computeScore (cfg : ScoreConfig) (t : Token) : ℤ :=
  let score : ℤ := 0
  let score := score + (if t.price_change_24h > cfg.suspiciousPriceChangeMin then 30 else 0)
  let score := score +
    (if t.age_hours < 24 then 50 else if t.age_hours < 168 then 20 else 0)
  let score := score + (if t.liquidity_usd < cfg.highRiskLiquidity then 15 else 0)
  let volLiqQuot := if t.liquidity_usd > 0 then t.volume_24h / t.liquidity_usd else 0
  let score := score + (if volLiqQuot > cfg.suspiciousVolLiqMin then 25 else 0)
  let score := score + (if !t.has_website && !t.has_socials then 20 else 0)
  let total_txns : ℕ := t.buys_24h + t.sells_24h
  let score := score +
    (if total_txns > 0 then
      let sellShare : ℚ := (t.sells_24h : ℚ) / (total_txns : ℚ)
      if sellShare > 0.8 then 25 else 0
     else 0)
  let score := score +
    (match t.liquidity_lock_score with
     | some ls =>
        if ls = 0 then 60
        else if ls < 30 then 40
        else if ls < 60 then 20
        else 0
     | none =>
        if t.liquidity_usd ≥ 100000 && t.age_hours ≥ 720 then 10 else 20)
  let volume_quot := if t.liquidity_usd > 0 then t.volume_24h / t.liquidity_usd else 0
  let score := score +
    (if volume_quot > 20 then 25 else if volume_quot > 5 then 10 else 0)
  let score := score + (if t.price_change_24h > 500 then 30 else 0)
  score

/-- `liquidity_lock_percentage` as collected before the threshold chain:
the locked percentage when lock info is present and `is_locked`, else 0. -/
def lockPct (t : Token) : ℚ :=
  match t.liquidity_lock_info with
  | some li => if li.is_locked then li.locked_percentage else 0
  | none => 0

/-- The score-to-bucket threshold chain of `Token.calculate_risk_score`,
including the stricter requirements inside the best-bucket branch. -/
def assignLevel (t : Token) (score : ℤ) : String :=
  if score ≥ 120 then "Скам"
  else if score ≥ 80 then "Высокий"
  else if score ≥ 50 then "Средний"
  else if score ≥ 25 then "Умеренный"
  else
    if t.liquidity_usd < 100000 then "Умеренный"
    else if lockPct t = 0 then
      let is_verified :=
        match t.verification_result with
        | some vr => vr.is_verified
        | none => false
      if !is_verified then "Средний" else "Умеренный"
    else if lockPct t ≥ 30 ∧ t.liquidity_usd ≥ 100000 then "Низкий"
    else if lockPct t ≥ 75 then "Низкий"
    else "Умеренный"

/-- The per-bucket minimum-liquidity gate for the "Средний" bucket
(`< $50K` drops it to "Высокий"). -/
def gateMedium (t : Token) (lvl : String) : String :=
  if lvl = "Средний" ∧ t.liquidity_usd < 50000 then "Высокий" else lvl

/-- The per-bucket minimum-liquidity gate for the "Высокий" bucket
(`< $25K` drops it to "Скам"). -/
def gateHigh (t : Token) (lvl : String) : String :=
  if lvl = "Высокий" ∧ t.liquidity_usd < 25000 then "Скам" else lvl

/-- `Token.calculate_risk_score`: recomputes `risk_score` from scratch,
maps it through the threshold chain and the two liquidity gates, and
stores both results on the token. -/
def calculate_risk_score (cfg : ScoreConfig) (t : Token) : Token :=
  let score := computeScore cfg t
  let lvl := gateHigh t (gateMedium t (assignLevel t score))
  { t with risk_score := score, risk_level := lvl }

/-- A token with a perfect profile — mature, liquid, fully locked on a
trusted platform, organic trading, socials present. -/
def perfectToken : Token where
  price_change_24h := 0
  age_hours := 1000
  liquidity_usd := 200000
  volume_24h := 1000
  has_website := true
  has_socials := true
  buys_24h := 100
  sells_24h := 10
  liquidity_lock_score := some 100
  liquidity_lock_info := some
    { is_locked := true
      locked_percentage := 95
      lock_duration_days := 400
      platform := "Team Finance" }
  verification_result := none

/-- A GoPlus answer flagging the contract as a honeypot on an otherwise
clean, verified contract. -/
def honeypotVerification : ContractVerificationResult where
  is_verified := true
  is_honeypot := true
  verification_source := "GoPlus Security"

end TokenAnalyzer

/-! ## Helper lemmas -/

namespace LiquidityLockChecker

theorem percentageComponent_mono {p q : ℚ} (h : p ≤ q) :
    percentageComponent p ≤ percentageComponent q := by
  unfold percentageComponent
  split_ifs <;> first | omega | linarith

theorem durationComponent_mono {d e : ℤ} (h : d ≤ e) :
    durationComponent d ≤ durationComponent e := by
  unfold durationComponent
  split_ifs <;> omega

end LiquidityLockChecker

/-! ## Claim theorems -/

open LiquidityLockChecker in
/-- Claim C3: `get_lock_score` is non-decreasing in `lockedPercentage`
with everything else fixed, non-decreasing in `lockDurationDays` with
everything else fixed, and returns exactly 0 whenever `is_locked` is
false. -/
theorem C3_lock_score_monotone :
    (∀ (info : LiquidityLockInfo) (p q : ℚ), p ≤ q →
      get_lock_score { info with locked_percentage := p } ≤
        get_lock_score { info with locked_percentage := q }) ∧
    (∀ (info : LiquidityLockInfo) (d e : ℤ), d ≤ e →
      get_lock_score { info with lock_duration_days := d } ≤
        get_lock_score { info with lock_duration_days := e }) ∧
    (∀ info : LiquidityLockInfo, info.is_locked = false → get_lock_score info = 0) := by
  refine ⟨?_, ?_, ?_⟩
  · intro info p q h
    unfold get_lock_score
    cases hl : info.is_locked with
    | false => simp
    | true =>
      simp only [hl, Bool.not_true, Bool.false_eq_true, if_false]
      have := percentageComponent_mono h
      omega
  · intro info d e h
    unfold get_lock_score
    cases hl : info.is_locked with
    | false => simp
    | true =>
      simp only [hl, Bool.not_true, Bool.false_eq_true, if_false]
      have := durationComponent_mono h
      omega
  · intro info h
    unfold get_lock_score
    simp [h]

open LiquidityLockChecker in
/-- Claim C3 witness: the monotonicity hypotheses discharged at concrete
inputs. -/
theorem C3_lock_score_monotone_witness :
    get_lock_score { is_locked := true, locked_percentage := 60 } ≤
      get_lock_score { is_locked := true, locked_percentage := 85 } ∧
    get_lock_score { is_locked := true, lock_duration_days := 40 } ≤
      get_lock_score { is_locked := true, lock_duration_days := 200 } ∧
    get_lock_score { is_locked := false, locked_percentage := 99 } = 0 := by
  refine ⟨?_, ?_, ?_⟩
  · exact C3_lock_score_monotone.1 { is_locked := true } 60 85 (by norm_num)
  · exact C3_lock_score_monotone.2.1 { is_locked := true } 40 200 (by norm_num)
  · exact C3_lock_score_monotone.2.2 { is_locked := false, locked_percentage := 99 } rfl

open LiquidityLockChecker in
/-- Claim C4: for a locked pool, `get_lock_score` equals the capped sum
of a base of 30, a percentage component (+25 / +20 / +10 at the ≥90 /
≥80 / ≥50 thresholds), a duration component (+25 / +20 / +15 / +10 at
the ≥365 / ≥180 / ≥90 / ≥30 thresholds), and a platform component (+20
on the trusted allow-list, +10 otherwise); for an unlocked pool it is 0
regardless of the other fields. -/
theorem C4_lock_score_formula (info : LiquidityLockInfo) :
    get_lock_score info =
      if info.is_locked then specLockedFormula info else 0 := by
  unfold get_lock_score specLockedFormula
  cases hl : info.is_locked <;> simp

namespace TtlCache

theorem lookupEntry_removeKey_ne {α : Type} (c : Cache α) (key k' : String)
    (h : k' ≠ key) :
    lookupEntry (removeKey c key) k' = lookupEntry c k' := by
  induction c with
  | nil => rfl
  | cons hd tl ih =>
    obtain ⟨k, e⟩ := hd
    have hne1 : ¬ key = k' := fun hcon => h hcon.symm
    have hne2 : ¬ k' = key := h
    by_cases hk : k = key
    · simp [removeKey, hk, lookupEntry, hne1, ih]
    · by_cases hkk : k = k'
      · simp [removeKey, hk, lookupEntry, hkk, hne2]
      · simp [removeKey, hk, lookupEntry, hkk, ih]

end TtlCache

open TtlCache in
/-- Claim C5: a lookup immediately after a store (no clock advance)
returns the stored value; once at least `ttl` seconds have elapsed the
entry is a miss; an entry is served iff `now - storedAt < ttl`; and a
stale or missing entry leads to a recompute-and-overwrite of that key
only — every other key's slot survives untouched (no purging). -/
theorem C5_cache_ttl {α : Type}
    (c : Cache α) (key : String) (now ttl : ℚ) (v : α) :
    (0 < ttl → cacheLookup (cacheStore c key now v) key now ttl = some v) ∧
    (∀ elapsed : ℚ, ttl ≤ elapsed →
      cacheLookup (cacheStore c key now v) key (now + elapsed) ttl = none) ∧
    (∀ w : α, cacheLookup c key now ttl = some w ↔
      ∃ storedAt, lookupEntry c key = some (storedAt, w) ∧ now - storedAt < ttl) ∧
    (∀ (compute : α) (k' : String), k' ≠ key →
      lookupEntry (cachedCall c key now ttl compute).2 k' = lookupEntry c k') := by
  refine ⟨?_, ?_, ?_, ?_⟩
  · intro h
    simp [cacheLookup, cacheStore, lookupEntry, h]
  · intro elapsed h
    have hnlt : ¬ (elapsed < ttl) := by
      intro hcon
      linarith
    simp [cacheLookup, cacheStore, lookupEntry, hnlt]
  · intro w
    unfold cacheLookup
    cases he : lookupEntry c key with
    | none => simp
    | some e =>
      obtain ⟨storedAt, u⟩ := e
      by_cases hf : now - storedAt < ttl
      · simp only [hf, if_true, Option.some.injEq, Prod.mk.injEq]
        constructor
        · intro hw
          exact ⟨storedAt, ⟨rfl, hw⟩, hf⟩
        · rintro ⟨s, ⟨rfl, hw⟩, _⟩
          exact hw
      · simp only [hf, if_false, Option.some.injEq, Prod.mk.injEq]
        constructor
        · intro hcon
          exact absurd hcon (by simp)
        · rintro ⟨s, ⟨rfl, hw⟩, hlt⟩
          exact absurd hlt hf
  · intro compute k' h
    unfold cachedCall
    cases cacheLookup c key now ttl with
    | some u => rfl
    | none =>
      simp only
      unfold cacheStore
      have hne : ¬ key = k' := fun hcon => h hcon.symm
      simp [lookupEntry, hne, lookupEntry_removeKey_ne c key k' h]

open TtlCache in
/-- Claim C5 witness: the cache behaviour at a concrete key, value and
clock. -/
theorem C5_cache_ttl_witness :
    cacheLookup (cacheStore ([("other", (0, 7))] : Cache ℤ) "k" 10 42) "k" 10 3600 = some 42 ∧
    cacheLookup (cacheStore ([("other", (0, 7))] : Cache ℤ) "k" 10 42) "k" (10 + 3600) 3600 = none ∧
    (cacheLookup ([("other", (0, 7))] : Cache ℤ) "k" 10 3600 = some 5 ↔
      ∃ storedAt, lookupEntry ([("other", (0, 7))] : Cache ℤ) "k" = some (storedAt, 5) ∧
        (10 : ℚ) - storedAt < 3600) ∧
    lookupEntry (cachedCall ([("other", (0, 7))] : Cache ℤ) "k" 10 3600 42).2 "other" =
      lookupEntry ([("other", (0, 7))] : Cache ℤ) "other" := by
  refine ⟨?_, ?_, ?_, ?_⟩
  · exact (C5_cache_ttl [("other", (0, 7))] "k" 10 3600 42).1 (by norm_num)
  · exact (C5_cache_ttl [("other", (0, 7))] "k" 10 3600 42).2.1 3600 (by norm_num)
  · exact (C5_cache_ttl [("other", (0, 7))] "k" 10 3600 42).2.2.1 5
  · exact (C5_cache_ttl [("other", (0, 7))] "k" 10 3600 42).2.2.2 42 "other" (by decide)

namespace RiskCalculator

theorem verification_score_bounds (td : TokenSecurityReport) :
    0 ≤ calculate_verification_score td ∧ calculate_verification_score td ≤ 1 := by
  unfold calculate_verification_score
  split_ifs <;> norm_num

theorem ownership_score_bounds (td : TokenSecurityReport) :
    0 ≤ calculate_ownership_score td ∧ calculate_ownership_score td ≤ 1 := by
  unfold calculate_ownership_score
  split_ifs <;> norm_num

theorem liquidity_score_bounds (td : TokenSecurityReport) :
    0 ≤ calculate_liquidity_score td ∧ calculate_liquidity_score td ≤ 1 := by
  unfold calculate_liquidity_score
  split_ifs <;> norm_num

theorem distribution_score_bounds (td : TokenSecurityReport) :
    0 ≤ calculate_distribution_score td ∧ calculate_distribution_score td ≤ 1 := by
  unfold calculate_distribution_score
  dsimp only
  split_ifs <;> norm_num

theorem trading_score_bounds (td : TokenSecurityReport) :
    0 ≤ calculate_trading_score td ∧ calculate_trading_score td ≤ 1 := by
  unfold calculate_trading_score
  dsimp only
  split_ifs <;> norm_num

theorem audit_score_bounds (td : TokenSecurityReport) :
    0 ≤ calculate_audit_score td ∧ calculate_audit_score td ≤ 1 := by
  unfold calculate_audit_score
  dsimp only
  split_ifs <;> norm_num

theorem community_score_bounds (td : TokenSecurityReport) :
    0 ≤ calculate_community_score td ∧ calculate_community_score td ≤ 1 := by
  unfold calculate_community_score
  norm_num

end RiskCalculator

open RiskCalculator in
/-- Claim C8: the seven fixed weights (0.15, 0.20, 0.25, 0.15, 0.10,
0.10, 0.05) sum exactly to 1, the overall score returned by
`RiskScoreCalculator.calculate_risk_score` is the weighted sum of the
seven per-signal contributions under those weights, and it therefore
always lies in the normalized range [0, 1]. -/
theorem C8_weighted_sum_normalized :
    (weights.contract_verification + weights.ownership_status +
      weights.liquidity_lock + weights.holder_distribution +
      weights.trading_patterns + weights.code_audit +
      weights.community_reports = 1) ∧
    ∀ td : TokenSecurityReport,
      (calculate_risk_score td).overall_score =
        0.15 * calculate_verification_score td +
        0.20 * calculate_ownership_score td +
        0.25 * calculate_liquidity_score td +
        0.15 * calculate_distribution_score td +
        0.10 * calculate_trading_score td +
        0.10 * calculate_audit_score td +
        0.05 * calculate_community_score td ∧
      0 ≤ (calculate_risk_score td).overall_score ∧
      (calculate_risk_score td).overall_score ≤ 1 := by
  constructor
  · norm_num [weights]
  · intro td
    have hv := verification_score_bounds td
    have ho := ownership_score_bounds td
    have hl := liquidity_score_bounds td
    have hd := distribution_score_bounds td
    have ht := trading_score_bounds td
    have ha := audit_score_bounds td
    have hc := community_score_bounds td
    refine ⟨?_, ?_, ?_⟩
    · simp only [calculate_risk_score, weightedSum, computeScores, weights]
      ring
    · simp only [calculate_risk_score, weightedSum, computeScores, weights]
      nlinarith [hv.1, ho.1, hl.1, hd.1, ht.1, ha.1, hc.1]
    · simp only [calculate_risk_score, weightedSum, computeScores, weights]
      nlinarith [hv.2, ho.2, hl.2, hd.2, ht.2, ha.2, hc.2]

open RiskCalculator in
/-- Claim C10 (implicit): `calculate_confidence` applied to the score
breakdown computed by `calculate_risk_score` equals exactly 1 for every
input report: all seven per-signal scores are non-negative, so the
running confidence reaches 0.5 + 7 × 0.1 = 1.2 and is capped at 1.0 —
the confidence field carries no information about the input. -/
theorem C10_confidence_constant_one (td : TokenSecurityReport) :
    (calculate_risk_score td).confidence = 1 := by
  have hv := (verification_score_bounds td).1
  have ho := (ownership_score_bounds td).1
  have hl := (liquidity_score_bounds td).1
  have hd := (distribution_score_bounds td).1
  have ht := (trading_score_bounds td).1
  have ha := (audit_score_bounds td).1
  have hc := (community_score_bounds td).1
  simp only [calculate_risk_score, calculate_confidence, computeScores]
  rw [if_pos hv, if_pos ho, if_pos hl, if_pos hd, if_pos ht, if_pos ha, if_pos hc]
  norm_num

open TokenAnalyzer in
/-- Claim C2 counterexample: a token whose verification result has
`isHoneypot = true` but whose liquidity, ownership and distribution
profile is otherwise perfect ends the scoring pipeline
(`verify_contracts` followed by `Token.calculate_risk_score`) in the
best bucket "Низкий", not in the worst bucket "Скам": the recomputation
in `calculate_risk_score` starts from zero and never reads
`is_honeypot`. -/
theorem C2_counterexample :
    honeypotVerification.is_honeypot = true ∧
    (calculate_risk_score {} (applyVerification perfectToken honeypotVerification)).risk_level
      = "Низкий" ∧
    "Низкий" ≠ "Скам" := by
  refine ⟨rfl, ?_, by decide⟩
  norm_num [calculate_risk_score, applyVerification, verificationPenalty, verificationLevel,
    computeScore, assignLevel, gateMedium, gateHigh, lockPct, perfectToken,
    honeypotVerification]

namespace TokenAnalyzer

theorem verificationPenalty_honeypot_ge (t : Token) (vr : ContractVerifier.ContractVerificationResult)
    (h : vr.is_honeypot = true) : 50 ≤ verificationPenalty t vr := by
  unfold verificationPenalty
  rw [h]
  simp only [eq_self_iff_true, if_true]
  split_ifs <;> norm_num

theorem verificationLevel_rank_ge (s : ℤ) (h : 40 ≤ s) :
    2 ≤ levelRank (verificationLevel s) := by
  unfold verificationLevel
  split_ifs <;> first | decide | omega

end TokenAnalyzer

open TokenAnalyzer in
/-- Claim C2 amended: a positive honeypot determination adds a fixed +50
penalty inside `verify_contracts`, which (from a non-negative incoming
score) puts the token at level "Средний" or worse at that stage — it
does not force the worst bucket; and the later
`Token.calculate_risk_score` recomputes score and level without reading
`isHoneypot`, so its score and level are unchanged when the honeypot
flag is flipped. -/
theorem C2_honeypot_behaviour :
    (∀ (t : Token) (vr : ContractVerifier.ContractVerificationResult),
      vr.is_honeypot = true → 0 ≤ t.risk_score →
      2 ≤ levelRank (applyVerification t vr).risk_level) ∧
    (∀ (cfg : ScoreConfig) (t : Token)
        (vr : ContractVerifier.ContractVerificationResult) (b : Bool),
      (calculate_risk_score cfg
          { t with verification_result := some { vr with is_honeypot := b } }).risk_score =
        (calculate_risk_score cfg
          { t with verification_result := some vr }).risk_score ∧
      (calculate_risk_score cfg
          { t with verification_result := some { vr with is_honeypot := b } }).risk_level =
        (calculate_risk_score cfg
          { t with verification_result := some vr }).risk_level) := by
  constructor
  · intro t vr h h0
    show 2 ≤ levelRank (verificationLevel (t.risk_score + verificationPenalty t vr))
    have hp := verificationPenalty_honeypot_ge t vr h
    exact verificationLevel_rank_ge _ (by omega)
  · intro cfg t vr b
    exact ⟨rfl, rfl⟩

open TokenAnalyzer in
/-- Claim C2 amended witness: the honeypot penalty and the
honeypot-blindness of the re-scoring at concrete inputs. -/
theorem C2_honeypot_behaviour_witness :
    2 ≤ levelRank (applyVerification perfectToken honeypotVerification).risk_level ∧
    (calculate_risk_score ({} : ScoreConfig)
        { perfectToken with
          verification_result := some { honeypotVerification with is_honeypot := true } }).risk_level =
      (calculate_risk_score ({} : ScoreConfig)
        { perfectToken with
          verification_result := some honeypotVerification }).risk_level := by
  constructor
  · exact C2_honeypot_behaviour.1 perfectToken honeypotVerification rfl (by decide)
  · exact (C2_honeypot_behaviour.2 {} perfectToken honeypotVerification true).2

open TokenAnalyzer in
/-- Claim C9: after the score-to-bucket thresholds, the per-bucket
minimum-liquidity gates can only downgrade the level (its rank never
decreases through either gate); "Средний" with liquidity below $50K
drops to "Высокий", "Высокий" with liquidity below $25K drops to
"Скам", and a score qualifying for the best bucket with liquidity below
$100K is assigned "Умеренный" (no better). -/
theorem C9_liquidity_gates :
    (∀ (t : Token) (lvl : String),
      levelRank lvl ≤ levelRank (gateMedium t lvl) ∧
      levelRank lvl ≤ levelRank (gateHigh t lvl)) ∧
    (∀ t : Token, t.liquidity_usd < 50000 → gateMedium t "Средний" = "Высокий") ∧
    (∀ t : Token, t.liquidity_usd < 25000 → gateHigh t "Высокий" = "Скам") ∧
    (∀ (t : Token) (score : ℤ), score < 25 → t.liquidity_usd < 100000 →
      assignLevel t score = "Умеренный") := by
  refine ⟨?_, ?_, ?_, ?_⟩
  · intro t lvl
    constructor
    · unfold gateMedium
      split_ifs with h
      · rw [h.1]
        decide
      · exact le_rfl
    · unfold gateHigh
      split_ifs with h
      · rw [h.1]
        decide
      · exact le_rfl
  · intro t h
    unfold gateMedium
    rw [if_pos ⟨rfl, h⟩]
  · intro t h
    unfold gateHigh
    rw [if_pos ⟨rfl, h⟩]
  · intro t score hs hl
    unfold assignLevel
    rw [if_neg (by omega), if_neg (by omega), if_neg (by omega), if_neg (by omega),
      if_pos hl]

open TokenAnalyzer in
/-- Claim C9 witness: the gates at concrete tokens and levels. -/
theorem C9_liquidity_gates_witness :
    levelRank "Средний" ≤ levelRank (gateMedium ({ liquidity_usd := 30000 } : Token) "Средний") ∧
    gateMedium ({ liquidity_usd := 30000 } : Token) "Средний" = "Высокий" ∧
    gateHigh ({ liquidity_usd := 20000 } : Token) "Высокий" = "Скам" ∧
    assignLevel ({ liquidity_usd := 90000 } : Token) 0 = "Умеренный" := by
  refine ⟨?_, ?_, ?_, ?_⟩
  · exact (C9_liquidity_gates.1 { liquidity_usd := 30000 } "Средний").1
  · exact C9_liquidity_gates.2.1 { liquidity_usd := 30000 } (by norm_num)
  · exact C9_liquidity_gates.2.2.1 { liquidity_usd := 20000 } (by norm_num)
  · exact C9_liquidity_gates.2.2.2 { liquidity_usd := 90000 } 0 (by norm_num) (by norm_num)


namespace ContractVerifier

theorem chunksOf_flatten (n : ℕ) (hn : 0 < n) (l : List String) :
    (chunksOf n l).flatten = l := by
  have H : ∀ (k : ℕ) (l : List String), l.length ≤ k → (chunksOf n l).flatten = l := by
    intro k
    induction k with
    | zero =>
      intro l hl
      have hnil : l = [] := List.eq_nil_of_length_eq_zero (Nat.le_zero.mp hl)
      subst hnil
      simp [chunksOf]
    | succ k ih =>
      intro l hl
      by_cases h : l = []
      · subst h
        simp [chunksOf]
      · rw [chunksOf, dif_neg h, dif_neg (by omega : ¬ n = 0)]
        rw [List.flatten_cons]
        rw [ih (l.drop n) (by
          have h1 : 0 < l.length := List.length_pos.mpr h
          simp only [List.length_drop]
          omega)]
        exact List.take_append_drop n l
  exact H l.length l le_rfl

theorem mem_chunksOf (l : List String) (a : String) :
    (∃ b ∈ chunksOf GOPLUS_BATCH_SIZE l, a ∈ b) ↔ a ∈ l := by
  conv_rhs => rw [← chunksOf_flatten GOPLUS_BATCH_SIZE (by norm_num [GOPLUS_BATCH_SIZE]) l]
  exact (List.mem_flatten).symm

theorem mem_keys_dictUpdate (m n : List (String × ContractVerificationResult)) (a : String) :
    a ∈ (dictUpdate m n).map Prod.fst ↔ a ∈ m.map Prod.fst ∨ a ∈ n.map Prod.fst := by
  unfold dictUpdate
  simp only [List.map_append, List.mem_append]
  constructor
  · rintro (h | h)
    · left
      rcases List.mem_map.mp h with ⟨kv, hkv, rfl⟩
      exact List.mem_map.mpr ⟨kv, (List.mem_filter.mp hkv).1, rfl⟩
    · right
      exact h
  · rintro (h | h)
    · by_cases hn2 : a ∈ n.map Prod.fst
      · right
        exact hn2
      · left
        rcases List.mem_map.mp h with ⟨kv, hkv, rfl⟩
        refine List.mem_map.mpr ⟨kv, List.mem_filter.mpr ⟨hkv, ?_⟩, rfl⟩
        simp only [Bool.not_eq_eq_eq_not, Bool.not_true, List.any_eq_false,
          decide_eq_false_iff_not]
        intro kv2 hkv2 hEq
        exact hn2 (List.mem_map.mpr ⟨kv2, hkv2, of_decide_eq_true hEq⟩)
    · right
      exact h

theorem keys_process_batch_fallback (env : Env) (addrs : List String) (chain : String) :
    (process_batch_fallback env addrs chain).map Prod.fst = addrs := by
  unfold process_batch_fallback
  rw [List.map_map]
  simp [Function.comp_def]

theorem keys_process_batch_goplus (env : Env) (addrs : List String) (chain : String) :
    (process_batch_goplus env addrs chain).map Prod.fst = addrs ∨
      process_batch_goplus env addrs chain = [] := by
  unfold process_batch_goplus
  cases hcm : chain_id_mapping chain with
  | none =>
    left
    exact keys_process_batch_fallback env addrs chain
  | some cid =>
    cases hgo : env.goplus chain addrs with
    | ok resp =>
      left
      dsimp only
      cases hres : resp.result with
      | some r =>
        dsimp only
        by_cases hc : resp.code = 1 ∧ r ≠ []
        · rw [if_pos hc, List.map_map]
          simp [Function.comp_def]
        · rw [if_neg hc, List.map_map]
          simp [Function.comp_def]
      | none =>
        dsimp only
        rw [List.map_map]
        simp [Function.comp_def]
    | httpError =>
      right
      rfl
    | exn =>
      right
      rfl

theorem keys_process_batch_goplus_ok (env : Env) (addrs : List String) (chain : String)
    (h : (chain_id_mapping chain).isSome →
      ∃ resp, env.goplus chain addrs = FetchOutcome.ok resp) :
    (process_batch_goplus env addrs chain).map Prod.fst = addrs := by
  unfold process_batch_goplus
  cases hcm : chain_id_mapping chain with
  | none =>
    dsimp only
    exact keys_process_batch_fallback env addrs chain
  | some cid =>
    dsimp only
    obtain ⟨resp, hresp⟩ := h (by simp [hcm])
    rw [hresp]
    dsimp only
    cases hres : resp.result with
    | some r =>
      dsimp only
      by_cases hc : resp.code = 1 ∧ r ≠ []
      · rw [if_pos hc, List.map_map]
        simp [Function.comp_def]
      · rw [if_neg hc, List.map_map]
        simp [Function.comp_def]
    | none =>
      dsimp only
      rw [List.map_map]
      simp [Function.comp_def]

theorem keys_process_batch_goplus_subset (env : Env) (addrs : List String) (chain : String)
    (a : String) (ha : a ∈ (process_batch_goplus env addrs chain).map Prod.fst) :
    a ∈ addrs := by
  rcases keys_process_batch_goplus env addrs chain with hk | hk
  · rwa [hk] at ha
  · rw [hk] at ha
    simp at ha

theorem mem_keys_foldl {β : Type}
    (step : List (String × ContractVerificationResult) → β →
      List (String × ContractVerificationResult))
    (S : β → String → Prop)
    (hstep : ∀ res x a, a ∈ (step res x).map Prod.fst ↔ a ∈ res.map Prod.fst ∨ S x a)
    (l : List β) (init : List (String × ContractVerificationResult)) (a : String) :
    a ∈ (l.foldl step init).map Prod.fst ↔
      a ∈ init.map Prod.fst ∨ ∃ x ∈ l, S x a := by
  induction l generalizing init with
  | nil => simp
  | cons hd tl ih =>
    rw [List.foldl_cons, ih, hstep]
    constructor
    · rintro ((h | h) | ⟨x, hx, hS⟩)
      · exact Or.inl h
      · exact Or.inr ⟨hd, List.mem_cons_self hd tl, h⟩
      · exact Or.inr ⟨x, List.mem_cons_of_mem hd hx, hS⟩
    · rintro (h | ⟨x, hx, hS⟩)
      · exact Or.inl (Or.inl h)
      · rcases List.mem_cons.mp hx with rfl | hx2
        · exact Or.inl (Or.inr hS)
        · exact Or.inr ⟨x, hx2, hS⟩

theorem mem_addToGroup (acc : List (String × List String)) (c x a : String) :
    (∃ grp ∈ addToGroup acc c x, a ∈ grp.2) ↔ (∃ grp ∈ acc, a ∈ grp.2) ∨ a = x := by
  induction acc with
  | nil => simp [addToGroup]
  | cons hd tl ih =>
    obtain ⟨c2, as⟩ := hd
    by_cases hc : c2 = c
    · subst hc
      have hstep : addToGroup ((c2, as) :: tl) c2 x = (c2, as ++ [x]) :: tl := by
        unfold addToGroup
        rw [if_pos rfl]
      rw [hstep]
      clear ih
      simp only [List.mem_cons, exists_eq_or_imp, List.mem_append, List.mem_singleton,
        List.not_mem_nil, or_false]
      constructor
      · rintro ((h | h) | h)
        · exact Or.inl (Or.inl h)
        · exact Or.inr h
        · exact Or.inl (Or.inr h)
      · rintro ((h | h) | h)
        · exact Or.inl (Or.inl h)
        · exact Or.inr h
        · exact Or.inl (Or.inr h)
    · have hstep : addToGroup ((c2, as) :: tl) c x = (c2, as) :: addToGroup tl c x := by
        conv_lhs => rw [addToGroup]
        rw [if_neg hc]
      rw [hstep]
      simp only [List.mem_cons, exists_eq_or_imp] at ih ⊢
      rw [ih]
      constructor
      · rintro (h | (h | h))
        · exact Or.inl (Or.inl h)
        · exact Or.inl (Or.inr h)
        · exact Or.inr h
      · rintro ((h | h) | h)
        · exact Or.inl h
        · exact Or.inr (Or.inl h)
        · exact Or.inr (Or.inr h)

theorem mem_groupByChain (contracts : List (String × String)) (a : String) :
    (∃ grp ∈ groupByChain contracts, a ∈ grp.2) ↔ a ∈ contracts.map Prod.fst := by
  unfold groupByChain
  have H : ∀ acc : List (String × List String),
      (∃ grp ∈ contracts.foldl (fun acc p => addToGroup acc p.2 p.1) acc, a ∈ grp.2) ↔
        (∃ grp ∈ acc, a ∈ grp.2) ∨ a ∈ contracts.map Prod.fst := by
    induction contracts with
    | nil => intro acc; simp
    | cons hd tl ih =>
      intro acc
      rw [List.foldl_cons, ih, mem_addToGroup]
      simp only [List.map_cons, List.mem_cons]
      constructor
      · rintro ((h | h) | h)
        · exact Or.inl h
        · exact Or.inr (Or.inl h)
        · exact Or.inr (Or.inr h)
      · rintro (h | (h | h))
        · exact Or.inl (Or.inl h)
        · exact Or.inl (Or.inr h)
        · exact Or.inr h
  have := H []
  simpa using this

theorem mem_keys_verify_contracts_batch (env : Env) (contracts : List (String × String))
    (a : String) :
    a ∈ (verify_contracts_batch env contracts).map Prod.fst ↔
      ∃ grp ∈ groupByChain contracts, ∃ batch ∈ chunksOf GOPLUS_BATCH_SIZE grp.2,
        a ∈ (process_batch_goplus env batch grp.1).map Prod.fst := by
  unfold verify_contracts_batch
  by_cases hc : contracts = []
  · rw [if_pos hc]
    subst hc
    simp [groupByChain]
  · rw [if_neg hc]
    rw [mem_keys_foldl _
      (fun grp a2 => ∃ batch ∈ chunksOf GOPLUS_BATCH_SIZE grp.2,
        a2 ∈ (process_batch_goplus env batch grp.1).map Prod.fst)
      (fun res grp a2 => by
        rw [mem_keys_foldl _
          (fun batch a3 => a3 ∈ (process_batch_goplus env batch grp.1).map Prod.fst)
          (fun res2 batch a3 => by
            rw [mem_keys_dictUpdate]
            rfl)])]
    simp

end ContractVerifier


open ContractVerifier in
/-- Claim C1 counterexample: for the single request `("0xa", "ethereum")`
in a world where the GoPlus batch call returns a non-200 HTTP status,
`verify_contracts_batch` returns the empty map — the requested address
is omitted instead of being bound to a default "not found" result. -/
theorem C1_counterexample :
    "0xa" ∈ ([("0xa", "ethereum")] : List (String × String)).map Prod.fst ∧
    verify_contracts_batch failEnv [("0xa", "ethereum")] = [] ∧
    "0xa" ∉ (verify_contracts_batch failEnv [("0xa", "ethereum")]).map Prod.fst := by
  have hch : chunksOf 25 ["0xa"] = [["0xa"]] := by
    rw [chunksOf, dif_neg (by simp), dif_neg (by norm_num)]
    simp only [List.take, List.drop]
    rw [chunksOf, dif_pos rfl]
  have hmain : verify_contracts_batch failEnv [("0xa", "ethereum")] = [] := by
    unfold verify_contracts_batch
    rw [if_neg (by simp)]
    simp only [groupByChain, addToGroup, List.foldl_cons, List.foldl_nil]
    rw [GOPLUS_BATCH_SIZE, hch]
    simp [process_batch_with_progress, process_batch_goplus, chain_id_mapping, failEnv,
      dictUpdate]
  refine ⟨by simp, hmain, ?_⟩
  rw [hmain]
  simp

open ContractVerifier in
/-- Claim C1 amended: the output map of `verify_contracts_batch` never
contains an address that was not requested; and whenever every GoPlus
batch call for a GoPlus-supported chain comes back with HTTP 200 (with
any body whatsoever — success, error code, or addresses missing), the
key set equals the requested address set exactly.  A batch whose HTTP
call fails (non-200 or exception), however, contributes no entries, so
its addresses are missing from the map. -/
theorem C1_key_set_behaviour :
    (∀ (env : Env) (contracts : List (String × String)) (a : String),
      a ∈ (verify_contracts_batch env contracts).map Prod.fst →
        a ∈ contracts.map Prod.fst) ∧
    (∀ (env : Env) (contracts : List (String × String)),
      (∀ chain batch, (chain_id_mapping chain).isSome →
        ∃ resp, env.goplus chain batch = FetchOutcome.ok resp) →
      ∀ a, a ∈ (verify_contracts_batch env contracts).map Prod.fst ↔
        a ∈ contracts.map Prod.fst) := by
  have hsub : ∀ (env : Env) (contracts : List (String × String)) (a : String),
      a ∈ (verify_contracts_batch env contracts).map Prod.fst →
        a ∈ contracts.map Prod.fst := by
    intro env contracts a ha
    rw [mem_keys_verify_contracts_batch] at ha
    obtain ⟨grp, hgrp, batch, hbatch, hkeys⟩ := ha
    have h1 : a ∈ batch := keys_process_batch_goplus_subset env batch grp.1 a hkeys
    have h2 : a ∈ grp.2 := (mem_chunksOf grp.2 a).mp ⟨batch, hbatch, h1⟩
    exact (mem_groupByChain contracts a).mp ⟨grp, hgrp, h2⟩
  refine ⟨hsub, ?_⟩
  intro env contracts hok a
  constructor
  · exact hsub env contracts a
  · intro ha
    rw [mem_keys_verify_contracts_batch]
    obtain ⟨grp, hgrp, h2⟩ := (mem_groupByChain contracts a).mpr ha
    obtain ⟨batch, hbatch, h1⟩ := (mem_chunksOf grp.2 a).mpr h2
    refine ⟨grp, hgrp, batch, hbatch, ?_⟩
    rw [keys_process_batch_goplus_ok env batch grp.1 (fun hs => hok grp.1 batch hs)]
    exact h1

open ContractVerifier in
/-- Claim C1 amended witness: with every GoPlus call answering HTTP 200
(here with an empty error body), the key set equals the input set at a
concrete two-chain input. -/
theorem C1_key_set_behaviour_witness :
    ("0xa" ∈ (verify_contracts_batch okEnv
        [("0xa", "ethereum"), ("0xb", "bsc")]).map Prod.fst ↔
      "0xa" ∈ ([("0xa", "ethereum"), ("0xb", "bsc")] : List (String × String)).map Prod.fst) ∧
    ("0xc" ∈ (verify_contracts_batch okEnv
        [("0xa", "ethereum"), ("0xb", "bsc")]).map Prod.fst →
      "0xc" ∈ ([("0xa", "ethereum"), ("0xb", "bsc")] : List (String × String)).map Prod.fst) := by
  constructor
  · exact C1_key_set_behaviour.2 okEnv [("0xa", "ethereum"), ("0xb", "bsc")]
      (fun chain batch _ => ⟨{ code := 0, result := none }, rfl⟩) "0xa"
  · exact C1_key_set_behaviour.1 okEnv [("0xa", "ethereum"), ("0xb", "bsc")] "0xc"

open TokenScanner ContractVerifier in
/-- Claim C7: when every retry attempt of `_make_async_request` fails
(HTTP 429, client errors such as timeouts and non-2xx statuses, or any
other exception such as a malformed payload), the function returns the
explicit empty dict `{}` to its caller — exceptions are converted, never
propagated; a batch task that does raise is caught by
`_process_batch_with_progress` and contributes the empty map, and
merging an empty map leaves every sibling result untouched. -/
theorem C7_failure_isolation :
    (∀ (attempts : ℕ → Attempt) (maxRetries : ℕ),
      (∀ i, i < maxRetries → ∀ payload, attempts i ≠ Attempt.ok payload) →
      make_async_request attempts maxRetries = []) ∧
    (∀ e : String, process_batch_with_progress (Except.error e) = []) ∧
    (∀ m : List (String × ContractVerificationResult), dictUpdate m [] = m) := by
  refine ⟨?_, ?_, ?_⟩
  · intro attempts mr h
    suffices H : ∀ (k attempt : ℕ), mr - attempt ≤ k → requestLoop attempts mr attempt = [] by
      exact H mr 0 (by omega)
    intro k
    induction k with
    | zero =>
      intro attempt hle
      rw [requestLoop, dif_pos (by omega)]
    | succ k ih =>
      intro attempt hle
      by_cases hge : attempt ≥ mr
      · rw [requestLoop, dif_pos hge]
      · rw [requestLoop, dif_neg hge]
        cases hA : attempts attempt with
        | ok payload => exact absurd hA (h attempt (by omega) payload)
        | tooMany =>
          dsimp only
          by_cases hlt : attempt < mr - 1
          · rw [if_pos hlt]
            exact ih (attempt + 1) (by omega)
          · rw [if_neg hlt]
        | clientErr =>
          dsimp only
          by_cases heq : attempt = mr - 1
          · rw [if_pos heq]
          · rw [if_neg heq]
            exact ih (attempt + 1) (by omega)
        | otherErr =>
          dsimp only
          by_cases heq : attempt = mr - 1
          · rw [if_pos heq]
          · rw [if_neg heq]
            exact ih (attempt + 1) (by omega)
  · intro e
    rfl
  · intro m
    simp [dictUpdate]

open TokenScanner in
/-- Claim C7 witness: three straight rate-limit answers exhaust the
default three retries and yield the empty dict. -/
theorem C7_failure_isolation_witness :
    (∀ i, i < 3 → ∀ payload, (fun _ => Attempt.tooMany) i ≠ Attempt.ok payload) ∧
    make_async_request (fun _ => Attempt.tooMany) 3 = [] := by
  constructor
  · intro i _ payload h
    exact Attempt.noConfusion h
  · exact C7_failure_isolation.1 (fun _ => Attempt.tooMany) 3
      (fun i _ payload h => Attempt.noConfusion h)
namespace ContractVerifier

theorem respect_rate_limit_counter_le (s : RLState) (t : ℚ)
    (hc : s.counter ≤ GOPLUS_RATE_LIMIT) (he : stepEdge s t = false) :
    (respect_rate_limit s t).2.counter ≤ GOPLUS_RATE_LIMIT := by
  unfold respect_rate_limit
  unfold stepEdge at he
  simp only [Bool.and_eq_false_iff, decide_eq_false_iff_not, not_le, not_lt] at he
  dsimp only at he ⊢
  by_cases h60 : t - s.counterResetTime > 60
  · rw [if_pos h60] at he ⊢
    dsimp only at he ⊢
    rw [if_neg (by norm_num [GOPLUS_RATE_LIMIT])]
    dsimp only
    norm_num [GOPLUS_RATE_LIMIT]
  · rw [if_neg h60] at he ⊢
    by_cases hge : s.counter ≥ GOPLUS_RATE_LIMIT
    · rw [if_pos hge]
      rcases he with he | he
      · omega
      · rw [if_pos he]
        dsimp only
        norm_num [GOPLUS_RATE_LIMIT]
    · rw [if_neg hge]
      dsimp only
      omega

end ContractVerifier

open ContractVerifier in
/-- Claim C6 counterexample: a concrete sequential schedule under which
`_respect_rate_limit('goplus')` dispatches 31 calls inside the rolling
60-second window starting at t = 2 s, exceeding the per-minute limit of
30: the counter only enforces a fixed window, and the spacing check
records entry times rather than dispatch times. -/
theorem C6_counterexample :
    GOPLUS_RATE_LIMIT < countInWindow (rlRun rlInit 0 burstSchedule) 2 := by
  have h : countInWindow (rlRun rlInit 0 burstSchedule) 2 = 31 := by
    norm_num [burstSchedule, rlInit, List.replicate, rlRun, respect_rate_limit, goplusDelay,
      GOPLUS_RATE_LIMIT, countInWindow]
  rw [h]
  norm_num [GOPLUS_RATE_LIMIT]

open ContractVerifier in
/-- Claim C6 amended: the limiter enforces a fixed-window budget, not a
rolling one.  Along any sequential run in which no call enters exactly
60 seconds after the current window start with the budget already
exhausted (the boundary case where the computed wait is not positive),
the per-window request counter — which counts the dispatches since the
last counter reset — never exceeds `GOPLUS_RATE_LIMIT = 30`; a rolling
60-second window can still straddle two counter windows and receive
more than 30 dispatches. -/
theorem C6_fixed_window_budget :
    ∀ (gaps : List ℚ) (s : RLState) (ret : ℚ),
      s.counter ≤ GOPLUS_RATE_LIMIT →
      runEdgeFree s ret gaps = true →
      ∀ s2 ∈ rlStates s ret gaps, s2.counter ≤ GOPLUS_RATE_LIMIT := by
  intro gaps
  induction gaps with
  | nil =>
    intro s ret hc he s2 hs2
    simp [rlStates] at hs2
  | cons g rest ih =>
    intro s ret hc he s2 hs2
    rw [runEdgeFree] at he
    simp only [Bool.and_eq_true, Bool.not_eq_true'] at he
    obtain ⟨he1, he2⟩ := he
    have hstep := respect_rate_limit_counter_le s (ret + g) hc he1
    rw [rlStates] at hs2
    rcases List.mem_cons.mp hs2 with rfl | hs2
    · exact hstep
    · exact ih _ _ hstep he2 s2 hs2

open ContractVerifier in
/-- Claim C6 amended witness: a concrete edge-free two-call run along
which the counter stays within the budget. -/
theorem C6_fixed_window_budget_witness :
    rlInit.counter ≤ GOPLUS_RATE_LIMIT ∧
    runEdgeFree rlInit 0 [0, 2] = true ∧
    ∀ s2 ∈ rlStates rlInit 0 [0, 2], s2.counter ≤ GOPLUS_RATE_LIMIT := by
  refine ⟨by norm_num [rlInit, GOPLUS_RATE_LIMIT], ?_, ?_⟩
  · norm_num [runEdgeFree, stepEdge, respect_rate_limit, goplusDelay, GOPLUS_RATE_LIMIT,
      rlInit]
  · exact C6_fixed_window_budget [0, 2] rlInit 0
      (by norm_num [rlInit, GOPLUS_RATE_LIMIT])
      (by norm_num [runEdgeFree, stepEdge, respect_rate_limit, goplusDelay,
        GOPLUS_RATE_LIMIT, rlInit])

